import Mathlib

/-
  Verification of the Chatbot manufacturing-analytics core.

  This file gives a shallow embedding of the aggregation / query-resolution
  core of the repository (data_processor.py, llama_client.py, routes.py) and
  proves or refutes the frozen claims C1..C10 about it.

  Numeric values (Python floats / numpy scalars) are modelled as unnormalized
  integer fractions (Frac): a pair num/den with den kept positive by every
  operation the embedded code performs.  Two Frac values represent the same
  number iff they are cross-multiplication equivalent (Frac.eqv).  This keeps
  every definition kernel-computable, which Lean rationals are not.
-/

/-! ## Unnormalized fractions -/

/-- An unnormalized rational number: num/den.  All values produced by the
embedded code keep den positive. -/
@[ext]
structure Frac where
  num : ℤ
  den : ℤ
deriving DecidableEq

def Frac.ofInt (n : ℤ) : Frac := ⟨n, 1⟩

def Frac.add (a b : Frac) : Frac := ⟨a.num * b.den + b.num * a.den, a.den * b.den⟩

def Frac.sub (a b : Frac) : Frac := ⟨a.num * b.den - b.num * a.den, a.den * b.den⟩

def Frac.mul (a b : Frac) : Frac := ⟨a.num * b.num, a.den * b.den⟩

/-- Division of fractions.  The embedded code only divides by values it has
checked to be strictly positive, so the den stays positive there. -/
def Frac.div (a b : Frac) : Frac := ⟨a.num * b.den, a.den * b.num⟩

instance : Zero Frac := ⟨⟨0, 1⟩⟩
instance : Add Frac := ⟨Frac.add⟩

theorem Frac.add_num (a b : Frac) : (a + b).num = a.num * b.den + b.num * a.den := rfl

theorem Frac.add_den (a b : Frac) : (a + b).den = a.den * b.den := rfl

theorem Frac.zero_num : (0 : Frac).num = 0 := rfl

theorem Frac.zero_den : (0 : Frac).den = 1 := rfl

instance : AddCommMonoid Frac where
  add_assoc a b c := by ext <;> simp [Frac.add_num, Frac.add_den] <;> ring
  zero_add a := by ext <;> simp [Frac.add_num, Frac.add_den, Frac.zero_num, Frac.zero_den]
  add_zero a := by ext <;> simp [Frac.add_num, Frac.add_den, Frac.zero_num, Frac.zero_den]
  add_comm a b := by ext <;> simp [Frac.add_num, Frac.add_den] <;> ring
  nsmul := nsmulRec

/-- Cross-multiplication equivalence: the two fractions denote the same
rational number (for positive denominators). -/
def Frac.eqv (a b : Frac) : Prop := a.num * b.den = b.num * a.den

instance (a b : Frac) : Decidable (Frac.eqv a b) := by unfold Frac.eqv; infer_instance

/-- Python truth of x > 0 for a fraction value; correct whenever den is
nonzero (the sign of num * den is the sign of the value). -/
def Frac.gt0 (a : Frac) : Bool := decide (0 < a.num * a.den)

/-- Python truth of x < y for fraction values with positive denominators. -/
def Frac.ltB (a b : Frac) : Bool := decide (a.num * b.den < b.num * a.den)

/-- Python int(x): truncation toward zero (den positive in every use). -/
def Frac.trunc (a : Frac) : ℤ := Int.tdiv a.num a.den

/-- Mathematical floor of a fraction with positive denominator. -/
def Frac.floorI (a : Frac) : ℤ := Int.fdiv a.num a.den

/-- Python round(x, 2) with banker's rounding (round half to even),
expressed on exact fractions: the result is an integer number of
hundredths. -/
def Frac.round2 (a : Frac) : Frac :=
  let h : Frac := a.mul (Frac.ofInt 100)
  let f : ℤ := h.floorI
  let rest : Frac := h.sub (Frac.ofInt f)
  let r : ℤ :=
    if rest.ltB ⟨1, 2⟩ then f
    else if Frac.ltB ⟨1, 2⟩ rest then f + 1
    else if f % 2 = 0 then f else f + 1
  ⟨r, 100⟩

/-! ## Python string helpers

Python str operations used by the embedded code, modelled on the character
list underlying a String. -/

/-- needle is a prefix of hay (character lists). -/
def startsWithL : List Char → List Char → Bool
  | [], _ => true
  | _ :: _, [] => false
  | a :: as, b :: bs => a == b && startsWithL as bs

/-- needle occurs somewhere in hay (character lists). -/
def hasSubL (n : List Char) : List Char → Bool
  | [] => n.isEmpty
  | l@(_ :: t) => startsWithL n l || hasSubL n t

/-- Python "needle in hay" on strings. -/
def pyIn (needle hay : String) : Bool := hasSubL needle.toList hay.toList

/-- Python any(w in s for w in words). -/
def pyAnyIn (words : List String) (s : String) : Bool := words.any (fun w => pyIn w s)

/-- Python str.lower() (ASCII case folding suffices for this code base). -/
def lowerS (s : String) : String := ⟨s.toList.map Char.toLower⟩

def isWS (c : Char) : Bool := c == ' ' || c == '\n' || c == '\t' || c == '\r'

/-- Python str.strip(): remove leading and trailing whitespace. -/
def pyStrip (s : String) : String :=
  ⟨((s.toList.dropWhile isWS).reverse.dropWhile isWS).reverse⟩

/-- Regex word character (\w): alphanumeric or underscore. -/
def isWordChar (c : Char) : Bool := c.isAlphanum || c == '_'

/-- Match of needle at the head of l with \b boundaries on both sides;
prev is the character just before this position (none at string start). -/
def wwAt (n : List Char) (prev : Option Char) (l : List Char) : Bool :=
  startsWithL n l &&
  (match prev with | none => true | some c => !isWordChar c) &&
  (match l.drop n.length with | [] => true | c :: _ => !isWordChar c)

def wwAux (n : List Char) (prev : Option Char) : List Char → Bool
  | [] => false
  | c :: t => wwAt n prev (c :: t) || wwAux n (some c) t

/-- Python re.search(rf'\b\x7bkey\x7d\b', hay) viewed as a Boolean, for the
alphabetic month keys the code searches for. -/
def wholeWordIn (needle hay : String) : Bool := wwAux needle.toList none hay.toList

/-- Reads the 4-digit year of a match of the regex 20\d\x7b2\x7d at the head
of the list, if any. -/
def yearAt : List Char → Option ℕ
  | '2' :: '0' :: a :: b :: _ =>
      if a.isDigit && b.isDigit then
        some (2000 + 10 * (a.toNat - 48) + (b.toNat - 48))
      else none
  | _ => none

/-- First (leftmost) match of the regex 20\d\x7b2\x7d in the list, as the
year it denotes. -/
def findYear : List Char → Option ℕ
  | [] => none
  | l@(_ :: t) => match yearAt l with | some y => some y | none => findYear t

/-- Zero-padded two-digit rendering, as strftime %m and %d produce. -/
def pad2 (n : ℕ) : String := if n < 10 then "0" ++ toString n else toString n

/-- Zero-padded four-digit rendering, as strftime %Y produces for the years
this code handles. -/
def pad4 (n : ℕ) : String :=
  if n < 10 then "000" ++ toString n
  else if n < 100 then "00" ++ toString n
  else if n < 1000 then "0" ++ toString n
  else toString n

/-- strftime("%Y-%m-%d") on a concrete calendar date. -/
def dateStrftime (y m d : ℕ) : String := pad4 y ++ "-" ++ pad2 m ++ "-" ++ pad2 d

/-! ## Calendar (Python calendar.monthrange and datetime) -/

/-- Python calendar.isleap. -/
def pyIsLeap (y : ℕ) : Bool := y % 4 = 0 && (decide (y % 100 ≠ 0) || y % 400 = 0)

/-- Python calendar.mdays table (index by month number). -/
def mdays : ℕ → ℕ
  | 1 => 31 | 2 => 28 | 3 => 31 | 4 => 30 | 5 => 31 | 6 => 30
  | 7 => 31 | 8 => 31 | 9 => 30 | 10 => 31 | 11 => 30 | 12 => 31
  | _ => 0

/-- Day count of calendar.monthrange(year, month): mdays plus one for a
leap-year February. -/
def monthrangeDays (y m : ℕ) : ℕ :=
  mdays m + (if m = 2 && pyIsLeap y then 1 else 0)

/-- A date value (the date component of a pandas Timestamp). -/
structure PDate where
  y : ℕ
  m : ℕ
  d : ℕ
deriving DecidableEq

/-- Lexicographic comparison of dates. -/
def PDate.leB (a b : PDate) : Bool :=
  a.y < b.y || (a.y = b.y && (a.m < b.m || (a.m = b.m && a.d ≤ b.d)))

/-- Timestamp.isoformat() for a midnight timestamp parsed from a date. -/
def isoStr (d : PDate) : String :=
  pad4 d.y ++ "-" ++ pad2 d.m ++ "-" ++ pad2 d.d ++ "T00:00:00"

def listMinDate (l : List PDate) : Option PDate :=
  l.foldr (fun d acc => match acc with
    | none => some d
    | some x => some (if PDate.leB d x then d else x)) none

def listMaxDate (l : List PDate) : Option PDate :=
  l.foldr (fun d acc => match acc with
    | none => some d
    | some x => some (if PDate.leB d x then x else d)) none

/-- datetime.now() as far as this code reads it. -/
structure PyDateTime where
  year : ℕ
  month : ℕ
  day : ℕ
deriving DecidableEq

/-! ## Data model: normalized tables

A pandas DataFrame as the aggregation core sees it.  The columns the summary
code reads are typed fields; every cell is null (NaN/NaT) or a value.
Column PRESENCE is tracked separately from cell nullness, because the code
probes df.columns.  Remaining columns (canonical numeric columns that no
summary reads, plus any non-canonical columns such as device_name or
energyCost companions from the table store) are kept as named cells. -/

/-- A generic cell of a column that the summary code never aggregates. -/
inductive PCell
  | null
  | numv (q : Frac)
  | strv (s : String)
deriving DecidableEq

structure Row where
  date : Option PDate
  Ai_partcount : Option Frac
  total_part_reject : Option Frac
  avg_oee : Option Frac
  avg_total_energy : Option Frac
  energyCost : Option Frac
  machineStatus : Option String
  maintFlag : Option Frac
  others : List (String × PCell)
deriving DecidableEq

/-- Pandas dtype of the Maintenance Flag column, which the code probes. -/
inductive MaintDtype
  | int64
  | float64
  | boolDt
  | objectDt
deriving DecidableEq

structure DF where
  hasDate : Bool
  hasAi : Bool
  hasReject : Bool
  hasOee : Bool
  hasEnergy : Bool
  hasEnergyCost : Bool
  hasStatus : Bool
  hasMaint : Bool
  maintDtype : MaintDtype
  otherCols : List String
  rows : List Row
deriving DecidableEq

/-- The seventeen canonical numeric column names of clean_dataframe /
sam_clean_dataframe (data_processor.py lines 164-182 and 205-223). -/
def numericColumns : List String :=
  ["Ai_partcount", "avg_apparent_power", "avg_avail", "avg_current",
   "avg_energy_consumption", "avg_oee", "avg_perf", "avg_quality",
   "avg_reactive_power", "avg_real_power", "avg_total_energy",
   "total_part_count", "total_part_reject", "total_running", "total_off",
   "total_idle", "powerUnitCost"]

/-- Cell lookup in the untyped part of a row. -/
def rowOther (r : Row) (c : String) : PCell :=
  match r.others.find? (fun p => p.1 == c) with
  | some p => p.2
  | none => PCell.null

/-! ## Pandas primitives -/

/-- Series.sum(): sum of the non-null cells, 0.0 when none (pandas default
skipna behaviour). -/
def colSum (cells : List (Option Frac)) : Frac := (cells.filterMap id).sum

/-- Series.mean(): none models NaN (mean of an all-null column). -/
def colMean (cells : List (Option Frac)) : Option Frac :=
  let xs := cells.filterMap id
  if xs.isEmpty then none else some (Frac.div xs.sum (Frac.ofInt xs.length))

/-- A Python number as the summaries hold it: its value (none models NaN)
and whether it is a numpy scalar (boxed) rather than a native int/float. -/
structure PyNum where
  val : Option Frac
  boxed : Bool
deriving DecidableEq

/-- Native Python number (int literal, len(), int(), round(), .item()). -/
def PyNum.native (f : Frac) : PyNum := ⟨some f, false⟩

/-- Binary arithmetic on Python numbers: numpy-ness is contagious. -/
def PyNum.sub (a b : PyNum) : PyNum :=
  ⟨match a.val, b.val with
   | some x, some y => some (x.sub y)
   | _, _ => none,
   a.boxed || b.boxed⟩

def PyNum.div (a b : PyNum) : PyNum :=
  ⟨match a.val, b.val with
   | some x, some y => some (x.div y)
   | _, _ => none,
   a.boxed || b.boxed⟩

def PyNum.mul (a b : PyNum) : PyNum :=
  ⟨match a.val, b.val with
   | some x, some y => some (x.mul y)
   | _, _ => none,
   a.boxed || b.boxed⟩

/-- Python truth of x > 0 on a summary value (NaN > 0 is False). -/
def PyNum.gt0 (a : PyNum) : Bool :=
  match a.val with
  | some f => f.gt0
  | none => false

/-- Python int(x): native, truncating.  Never applied to NaN by the
embedded code. -/
def PyNum.toInt (a : PyNum) : PyNum :=
  ⟨(a.val.map (fun f => Frac.ofInt f.trunc)), false⟩

/-- Python round(float(x), 2): native; NaN stays NaN. -/
def PyNum.round2 (a : PyNum) : PyNum := ⟨a.val.map Frac.round2, false⟩

/-- numpy scalar .item(): same value, native. -/
def PyNum.item (a : PyNum) : PyNum := ⟨a.val, false⟩

/-! ## data_processor.py: summaries -/

/-- Summary dict produced by get_file_summary / sam_get_file_summary. -/
structure FileSummary where
  total_records : PyNum
  total_parts_produced : PyNum
  total_parts_rejected : PyNum
  average_oee : PyNum
  total_energy : PyNum
  quality_rate : PyNum
deriving DecidableEq

def dfSumAi (df : DF) : Frac := colSum (df.rows.map (fun r => r.Ai_partcount))

def dfSumReject (df : DF) : Frac := colSum (df.rows.map (fun r => r.total_part_reject))

def dfMeanOee (df : DF) : Option Frac := colMean (df.rows.map (fun r => r.avg_oee))

def dfSumEnergy (df : DF) : Frac := colSum (df.rows.map (fun r => r.avg_total_energy))

/-- DataProcessor.get_file_summary (data_processor.py lines 256-281).
Column sums and means are numpy scalars (boxed); the 0 defaults for absent
columns are native int literals. -/
def getFileSummary (df : DF) : FileSummary :=
  let produced : PyNum := if df.hasAi then ⟨some (dfSumAi df), true⟩ else PyNum.native 0
  let rejected : PyNum := if df.hasReject then ⟨some (dfSumReject df), true⟩ else PyNum.native 0
  let avgOee : PyNum := if df.hasOee then ⟨dfMeanOee df, true⟩ else PyNum.native 0
  let energy : PyNum := if df.hasEnergy then ⟨some (dfSumEnergy df), true⟩ else PyNum.native 0
  let quality : PyNum :=
    if produced.gt0 then
      ((produced.sub rejected).div produced).mul (PyNum.native (Frac.ofInt 100))
    else PyNum.native 0
  { total_records := PyNum.native (Frac.ofInt df.rows.length)
    total_parts_produced := produced
    total_parts_rejected := rejected
    average_oee := avgOee
    total_energy := energy
    quality_rate := quality }

/-- DataProcessor.sam_get_file_summary (data_processor.py lines 283-306):
same aggregates, but converted to native scalars with int() / round(float(), 2). -/
def samGetFileSummary (df : DF) : FileSummary :=
  let produced : PyNum := if df.hasAi then ⟨some (dfSumAi df), true⟩ else PyNum.native 0
  let rejected : PyNum := if df.hasReject then ⟨some (dfSumReject df), true⟩ else PyNum.native 0
  let avgOee : PyNum := if df.hasOee then ⟨dfMeanOee df, true⟩ else PyNum.native 0
  let energy : PyNum := if df.hasEnergy then ⟨some (dfSumEnergy df), true⟩ else PyNum.native 0
  let quality : PyNum :=
    if produced.gt0 then
      ((produced.sub rejected).div produced).mul (PyNum.native (Frac.ofInt 100))
    else PyNum.native 0
  { total_records := PyNum.native (Frac.ofInt df.rows.length)
    total_parts_produced := produced.toInt
    total_parts_rejected := rejected.toInt
    average_oee := avgOee.round2
    total_energy := energy.round2
    quality_rate := quality.round2 }

/-- Date-range dict of get_date_range (data_processor.py lines 243-254). -/
structure DateRange where
  start : Option String
  stop : Option String
  days : ℕ
deriving DecidableEq

/-- DataProcessor.get_date_range.  start/stop are isoformat strings of the
min/max non-null date (pandas min/max skip NaT); days counts the distinct
values of the date column including NaT if present. -/
def getDateRange (df : DF) : DateRange :=
  let dates := df.rows.filterMap (fun r => r.date)
  if df.hasDate && !dates.isEmpty then
    { start := (listMinDate dates).map isoStr
      stop := (listMaxDate dates).map isoStr
      days := ((df.rows.map (fun r => r.date)).dedup).length }
  else { start := none, stop := none, days := 0 }

/-- One value row of the monthly breakdown. -/
structure MonthEntry where
  Ai_partcount : PyNum
  avg_oee : PyNum
  avg_total_energy : PyNum
  energyCost : Option PyNum
deriving DecidableEq

/-- Summary dict produced by get_machine_summary / sam_get_machine_summary
(keys absent from the dict are modelled as none). -/
structure MachineSummary where
  base : FileSummary
  machine_status_breakdown : Option (List (String × PyNum))
  maintenance_events : Option PyNum
  date_range : Option DateRange
  monthly_breakdown : Option (List (String × MonthEntry))
deriving DecidableEq

/-- The rows with a parseable (non-null) date: df.dropna(subset=['date']). -/
def datedRows (df : DF) : List Row := df.rows.filter (fun r => r.date.isSome)

/-- Calendar-month period of a dated row (only applied to dated rows). -/
def rowPeriod (r : Row) : ℕ × ℕ :=
  match r.date with
  | some d => (d.y, d.m)
  | none => (0, 0)

/-- The distinct periods of the grouped frame.  Pandas lists group keys in
ascending order; no property stated here depends on the entry order, so the
dedup order is used. -/
def observedPeriods (l : List Row) : List (ℕ × ℕ) := (l.map rowPeriod).dedup

/-- The rows of one calendar-month group. -/
def periodGroup (l : List Row) (p : ℕ × ℕ) : List Row :=
  l.filter (fun r => rowPeriod r = p)

/-- str(Period) for a monthly period: YYYY-MM. -/
def periodStr (p : ℕ × ℕ) : String := pad4 p.1 ++ "-" ++ pad2 p.2

/-- Per-month aggregate of get_machine_summary: sums / mean as numpy values
(to_dict leaves them boxed; the mean of an all-null group is NaN). -/
def mkMonthEntryRaw (g : List Row) : MonthEntry :=
  { Ai_partcount := ⟨some (colSum (g.map (fun r => r.Ai_partcount))), true⟩
    avg_oee := ⟨colMean (g.map (fun r => r.avg_oee)), true⟩
    avg_total_energy := ⟨some (colSum (g.map (fun r => r.avg_total_energy))), true⟩
    energyCost := some ⟨some (colSum (g.map (fun r => r.energyCost))), true⟩ }

/-- Per-month aggregate of sam_get_machine_summary: fillna(0) replaces a NaN
mean by 0, .item() unboxes every value, and energyCost is aggregated only
when the column exists. -/
def mkMonthEntrySam (hasCost : Bool) (g : List Row) : MonthEntry :=
  { Ai_partcount := PyNum.native (colSum (g.map (fun r => r.Ai_partcount)))
    avg_oee := PyNum.native ((colMean (g.map (fun r => r.avg_oee))).getD 0)
    avg_total_energy := PyNum.native (colSum (g.map (fun r => r.avg_total_energy)))
    energyCost :=
      if hasCost then some (PyNum.native (colSum (g.map (fun r => r.energyCost))))
      else none }

/-- Series.value_counts().to_dict(): occurrence count of each distinct
non-null label.  Pandas orders by descending count; no stated property
depends on the order.  Counts are numpy ints when boxed is true. -/
def statusCounts (rows : List Row) (boxed : Bool) : List (String × PyNum) :=
  let vs := rows.filterMap (fun r => r.machineStatus)
  (vs.dedup).map (fun s => (s, ⟨some (Frac.ofInt (vs.count s)), boxed⟩))

/-- Maintenance count of get_machine_summary: numpy sum when the dtype is
int64/float64, else native 0. -/
def maintEventsRaw (df : DF) : PyNum :=
  if df.maintDtype = MaintDtype.int64 || df.maintDtype = MaintDtype.float64 then
    ⟨some (colSum (df.rows.map (fun r => r.maintFlag))), true⟩
  else PyNum.native 0

/-- Maintenance count of sam_get_machine_summary: int(sum) when the dtype is
int64/float64/bool, else 0; native either way. -/
def maintEventsSam (df : DF) : PyNum :=
  if df.maintDtype = MaintDtype.int64 || df.maintDtype = MaintDtype.float64
      || df.maintDtype = MaintDtype.boolDt then
    PyNum.native (Frac.ofInt (colSum (df.rows.map (fun r => r.maintFlag))).trunc)
  else PyNum.native 0

/-- DataProcessor.get_machine_summary (data_processor.py lines 308-343).
The monthly aggregation dict hard-codes the four columns Ai_partcount,
avg_oee, avg_total_energy and energyCost; if the date branch is reached
with any of them missing, pandas agg raises KeyError, the except clause
logs, and the WHOLE summary degrades to the empty dict — modelled as none. -/
def getMachineSummary (df : DF) : Option MachineSummary :=
  let base := getFileSummary df
  let sb := if df.hasStatus then some (statusCounts df.rows true) else none
  let me := if df.hasMaint then some (maintEventsRaw df) else none
  if df.hasDate then
    let dfd := datedRows df
    if dfd.isEmpty then
      some ⟨base, sb, me, none, none⟩
    else if df.hasAi && df.hasOee && df.hasEnergy && df.hasEnergyCost then
      some ⟨base, sb, me,
        some (getDateRange { df with rows := dfd }),
        some ((observedPeriods dfd).map
          (fun p => (periodStr p, mkMonthEntryRaw (periodGroup dfd p))))⟩
    else none
  else some ⟨base, sb, me, none, none⟩

/-- Top-level .item() unboxing applied by sam_get_machine_summary to the
get_file_summary dict it starts from. -/
def unboxFileSummary (s : FileSummary) : FileSummary :=
  { total_records := s.total_records.item
    total_parts_produced := s.total_parts_produced.item
    total_parts_rejected := s.total_parts_rejected.item
    average_oee := s.average_oee.item
    total_energy := s.total_energy.item
    quality_rate := s.quality_rate.item }

/-- DataProcessor.sam_get_machine_summary (data_processor.py lines 345-396).
Starts from get_file_summary and unboxes every value; guards the energyCost
aggregation on column presence, but still hard-codes Ai_partcount, avg_oee
and avg_total_energy in the monthly agg dict — a KeyError there degrades the
whole summary to the empty dict (none). -/
def samGetMachineSummary (df : DF) : Option MachineSummary :=
  let base := unboxFileSummary (getFileSummary df)
  let sb := if df.hasStatus then some (statusCounts df.rows false) else none
  let me := if df.hasMaint then some (maintEventsSam df) else none
  if df.hasDate then
    let dfd := datedRows df
    if dfd.isEmpty then
      some ⟨base, sb, me, none, none⟩
    else if df.hasAi && df.hasOee && df.hasEnergy then
      some ⟨base, sb, me,
        some (getDateRange { df with rows := dfd }),
        some ((observedPeriods dfd).map
          (fun p => (periodStr p, mkMonthEntrySam df.hasEnergyCost (periodGroup dfd p))))⟩
    else none
  else some ⟨base, sb, me, none, none⟩

/-! ## data_processor.py: cleaning, date resolution, table fetch -/

/-- pd.to_numeric(col, errors='coerce') on a generic cell.  String cells are
modelled as non-numeric text (numeric inputs are represented as numv
directly), so coercion turns them into null. -/
def coerceCell : PCell → PCell
  | PCell.strv _ => PCell.null
  | c => c

/-- In-place numeric coercion of the canonical numeric columns held in the
untyped part of a row (the typed fields already hold coerced values). -/
def coerceRowOthers (r : Row) : Row :=
  { r with others :=
      r.others.map (fun p =>
        if numericColumns.contains p.1 then (p.1, coerceCell p.2) else p) }

/-- Row null test against the columns present in df (dropna(how='all')). -/
def rowAllNull (df : DF) (r : Row) : Bool :=
  (!df.hasDate || r.date.isNone) &&
  (!df.hasAi || r.Ai_partcount.isNone) &&
  (!df.hasReject || r.total_part_reject.isNone) &&
  (!df.hasOee || r.avg_oee.isNone) &&
  (!df.hasEnergy || r.avg_total_energy.isNone) &&
  (!df.hasEnergyCost || r.energyCost.isNone) &&
  (!df.hasStatus || r.machineStatus.isNone) &&
  (!df.hasMaint || r.maintFlag.isNone) &&
  (df.otherCols.all (fun c => rowOther r c == PCell.null))

/-- DataProcessor.sam_clean_dataframe (data_processor.py lines 197-241).
After the numeric coercions, keep_columns = ['date'] + the present canonical
numeric columns is selected.  When the frame has NO date column, df[keep_columns]
raises KeyError and the except clause returns the input frame (coercions
included) with ALL its columns intact; otherwise the selection drops
Machine Status, Maintenance Flag, energyCost and every non-canonical column,
and dropna(how='all') then removes fully-null rows. -/
def samCleanDF (df : DF) : DF :=
  let dfC : DF := { df with rows := df.rows.map coerceRowOthers }
  if !df.hasDate then dfC
  else
    let pruned : DF := { dfC with
      hasStatus := false
      hasMaint := false
      hasEnergyCost := false
      otherCols := numericColumns.filter (fun c => dfC.otherCols.contains c)
      rows := dfC.rows.map (fun r =>
        { r with machineStatus := none, maintFlag := none, energyCost := none,
                 others := r.others.filter (fun p => numericColumns.contains p.1) }) }
    { pruned with rows := pruned.rows.filter (fun r => !(rowAllNull pruned r)) }

/-- Month-name table of _extract_date_from_query (data_processor.py lines
468-481), in dict insertion order, which is the iteration order. -/
def monthsTable : List (String × ℕ) :=
  [("january", 1), ("jan", 1), ("february", 2), ("feb", 2), ("march", 3),
   ("mar", 3), ("april", 4), ("apr", 4), ("may", 5), ("june", 6), ("jun", 6),
   ("july", 7), ("jul", 7), ("august", 8), ("aug", 8), ("september", 9),
   ("sep", 9), ("sept", 9), ("october", 10), ("oct", 10), ("november", 11),
   ("nov", 11), ("december", 12), ("dec", 12)]

/-- now - relativedelta(months=1), read back as (month, year): January rolls
over to December of the previous year. -/
def lastMonthOf (now : PyDateTime) : ℕ × ℕ :=
  if now.month = 1 then (12, now.year - 1) else (now.month - 1, now.year)

/-- DataProcessor._extract_date_from_query (data_processor.py lines 450-502),
with the year kept as the number whose decimal string the code returns (the
caller re-parses it with int()). -/
def extractMY (query : String) (now : PyDateTime) : ℕ × ℕ :=
  let ql := lowerS query
  if pyIn "this month" ql then (now.month, now.year)
  else if pyIn "last month" ql then lastMonthOf now
  else if pyIn "this year" ql then (1, now.year)
  else if pyIn "last year" ql then (1, now.year - 1)
  else
    let month := (monthsTable.find? (fun kv => wholeWordIn kv.1 ql)).map (fun kv => kv.2)
    let year := (findYear ql.toList).getD now.year
    (month.getD 1, year)

/-- The (month, year-string) pair _extract_date_from_query returns. -/
def extractDateFromQuery (query : String) (now : PyDateTime) : ℕ × String :=
  let p := extractMY query now
  (p.1, toString p.2)

/-- The OData filter string get_specific_file_data issues against the table
service (data_processor.py line 418): bounds are the first day of the
resolved month and calendar.monthrange's last day. -/
def buildFilter (machine : String) (y m : ℕ) : String :=
  "device_name eq '" ++ machine ++ "' and date ge '" ++ dateStrftime y m 1 ++
  "' and date le '" ++ dateStrftime y m (monthrangeDays y m) ++ "'"

/-- Filter expression issued for a concrete query: the resolved month/year
fed into buildFilter. -/
def gsfdFilterExpr (machine query : String) (now : PyDateTime) : String :=
  let p := extractMY query now
  buildFilter machine p.2 p.1

/-- The machine_data dict of get_specific_file_data (and the shape routes.py
consumes).  query_specific / requested_file are never set by this code path,
so .get() on them yields falsy values. -/
structure MachineData where
  machine : String
  combined : DF
  fromTableSummary : FileSummary
  fromTableDateRange : DateRange
  summary : Option MachineSummary
  querySpecific : Bool
  requestedFile : String

/-- DataProcessor.get_specific_file_data (data_processor.py lines 403-448).
fetched models the entity rows the table service returns for
gsfdFilterExpr; an empty row list short-circuits to the empty dict (none).
Otherwise the frame is cleaned with sam_clean_dataframe and summarized with
get_file_summary (per file) and sam_get_machine_summary (combined). -/
def getSpecificFileData (machine query : String) (now : PyDateTime) (fetched : DF) :
    Option MachineData :=
  let _filterIssued := gsfdFilterExpr machine query now
  if fetched.rows.isEmpty then none
  else
    let df := samCleanDF fetched
    some { machine := machine
           combined := df
           fromTableSummary := getFileSummary df
           fromTableDateRange := getDateRange df
           summary := samGetMachineSummary df
           querySpecific := false
           requestedFile := "" }

/-! ## llama_client.py: intent classification and narrative composition

The external inference paths (LM Studio HTTP, llama-cpp subprocess, ollama)
are modelled in their all-fail condition, which is what claims C5-C7 are
about: _call_llama then returns _rule_based_response(prompt), whose value is
either the json.dumps of a fixed intent dict (modelled as the dict itself)
or Python None (the function body ends without a return for non-analysis
prompts). -/

/-- The structured analysis dict (QueryIntent of the spec). -/
structure QueryIntent where
  intent : String
  time_period : String
  metrics : List String
  needs_chart : Bool
  chart_types : List String
  files_needed : Option (List String)
  analysis_type : String
deriving DecidableEq

/-- Rule-based summary intent (llama_client.py lines 156-164). -/
def rbSummaryIntent : QueryIntent :=
  ⟨"summary", "current", ["OEE", "Production", "Quality", "Energy"], true,
   ["bar", "pie", "line"], some [], "comprehensive_summary"⟩

/-- Rule-based comparison intent (lines 166-174). -/
def rbComparisonIntent : QueryIntent :=
  ⟨"comparison", "multi_period", ["OEE", "Production", "Quality"], true,
   ["bar", "line", "comparison"], some [], "comparative_analysis"⟩

/-- Rule-based trend intent (lines 176-184). -/
def rbTrendIntent : QueryIntent :=
  ⟨"trend", "time_series", ["OEE", "Energy", "Production"], true,
   ["line", "area"], some [], "trend_analysis"⟩

/-- Rule-based specific-metric intent (lines 186-194). -/
def rbSpecificIntent : QueryIntent :=
  ⟨"specific_metric", "current", ["OEE", "Production"], true, ["bar"],
   some [], "metric_analysis"⟩

/-- LlamaClient._rule_based_response (llama_client.py lines 148-197).
Returns a JSON intent text only for prompts containing both "analyze" and
"json"; for every other prompt the function body ends without returning, so
the Python value is None (modelled as none). -/
def ruleBasedResponse (prompt : String) : Option QueryIntent :=
  let pl := lowerS prompt
  if pyIn "analyze" pl && pyIn "json" pl then
    if pyAnyIn ["summary", "overview", "report"] pl then some rbSummaryIntent
    else if pyAnyIn ["compare", "comparison", "vs"] pl then some rbComparisonIntent
    else if pyAnyIn ["trend", "over time"] pl then some rbTrendIntent
    else some rbSpecificIntent
  else none

/-- LlamaClient._call_llama (lines 88-146) under the hypothesis of claim C5:
the LM Studio request, the llama-cpp subprocess and every ollama model path
fail, so the terminal branch returns _rule_based_response(prompt). -/
def callLlamaAllFail (prompt : String) : Option QueryIntent := ruleBasedResponse prompt

/-- LlamaClient._fallback_analysis (lines 236-260). -/
def fallbackAnalysis (query : String) : QueryIntent :=
  let ql := lowerS query
  let intent :=
    if pyAnyIn ["summary", "overview", "report"] ql then "summary"
    else if pyAnyIn ["compare", "comparison", "vs", "versus"] ql then "comparison"
    else if pyAnyIn ["trend", "over time", "change"] ql then "trend"
    else "specific_metric"
  let needsChart := pyAnyIn ["chart", "graph", "visual", "plot", "show"] ql
  ⟨intent, "all", ["OEE", "Production", "Quality"], needsChart, ["bar", "line"],
   none, "basic_analysis"⟩

/-- Fixed leading segment of the analysis prompt (analyze_query, lines 22-39). -/
def analysisPromptSeg1 : String :=
  "\n            Analyze this manufacturing data query and provide a structured response.\n            \n            Machine: "

def analysisPromptSeg2 : String := "\n            Available data: "

def analysisPromptSeg3 : String := "\n            \n            User query: \""

/-- Fixed trailing segment of the analysis prompt, including the JSON schema
(note that it contains the words summary, report, json and analyze). -/
def analysisPromptSeg4 : String :=
  "\"\n            \n            Please analyze and respond with JSON format:\n            \x7b\n                \"intent\": \"summary|comparison|trend|specific_metric|report\",\n                \"time_period\": \"specific dates or periods mentioned\",\n                \"metrics\": [\"list of specific metrics requested\"],\n                \"needs_chart\": true/false,\n                \"chart_types\": [\"bar\", \"line\", \"pie\", \"comparison\"],\n                \"analysis_type\": \"descriptive analysis needed\"\n            \x7d\n            "

def analysisPrompt (query machine context : String) : String :=
  analysisPromptSeg1 ++ machine ++ analysisPromptSeg2 ++ context ++
  analysisPromptSeg3 ++ query ++ analysisPromptSeg4

/-- LlamaClient.analyze_query (lines 16-53) with the external inference
unavailable: the rule-based JSON parses back to its dict; a None response
makes json.loads raise, and the except clause returns _fallback_analysis. -/
def analyzeQuery (query machine context : String) : QueryIntent :=
  match callLlamaAllFail (analysisPrompt query machine context) with
  | some a => a
  | none => fallbackAnalysis query

/-! ## llama_client.py: narrative composition -/

/-- A json.dumps rendering of an intent dict (key order and spacing chosen
once here; the properties below depend only on its delimiters). -/
def jsonDumpsIntent (i : QueryIntent) : String :=
  "\x7b\"intent\": \"" ++ i.intent ++ "\", \"time_period\": \"" ++ i.time_period ++
  "\", \"metrics\": [" ++ String.intercalate ", " (i.metrics.map (fun s => "\"" ++ s ++ "\"")) ++
  "], \"needs_chart\": " ++ (if i.needs_chart then "true" else "false") ++
  ", \"chart_types\": [" ++ String.intercalate ", " (i.chart_types.map (fun s => "\"" ++ s ++ "\"")) ++
  "], \"analysis_type\": \"" ++ i.analysis_type ++ "\"\x7d"

/-- Abstracted decimal rendering of a summary number (Python float/int
formatting is abstracted to an exact num/den rendering; no stated property
depends on the digits). -/
def showPyNum (x : PyNum) : String :=
  match x.val with
  | some f => toString f.num ++ "/" ++ toString f.den
  | none => "nan"

/-- Dict getter summary.get(key, 0) on the possibly-empty summary dict. -/
def msGet (s : Option MachineSummary) (sel : FileSummary → PyNum) : PyNum :=
  match s with
  | some m => sel m.base
  | none => PyNum.native 0

/-- Python max(x, 1) used as a division guard in the report templates. -/
def fracMax1 (f : Frac) : Frac :=
  if Frac.ltB f (Frac.ofInt 1) then Frac.ofInt 1 else f

/-- LlamaClient._prepare_data_context (lines 199-212): the table-store path
always carries the single file from_table. -/
def prepareDataContext (md : Option MachineData) : String :=
  match md with
  | none => "No data available"
  | some d => "Files: from_table: " ++ toString d.combined.rows.length ++ " records"

/-- LlamaClient._prepare_data_summary (lines 214-234).  total_cost is never
set by the summaries of this code path, so .get defaults it to 0. -/
def prepareDataSummary (md : Option MachineData) : String :=
  match md with
  | none => "No summary available"
  | some d =>
      let s := d.summary
      "\n            Total Records: " ++ showPyNum (msGet s (fun b => b.total_records)) ++
      "\n            Parts Produced: " ++ showPyNum (msGet s (fun b => b.total_parts_produced)) ++
      "\n            Parts Rejected: " ++ showPyNum (msGet s (fun b => b.total_parts_rejected)) ++
      "\n            Average OEE: " ++ showPyNum (msGet s (fun b => b.average_oee)) ++
      "%\n            Quality Rate: " ++ showPyNum (msGet s (fun b => b.quality_rate)) ++
      "%\n            Total Energy: " ++ showPyNum (msGet s (fun b => b.total_energy)) ++
      " KwH\n            Total Cost: ₹" ++ showPyNum (PyNum.native 0) ++ "\n            "

/-- Value division with the max(denominator, 1) guard of the reports. -/
def guardedDiv (a b : PyNum) : Frac :=
  (Frac.div ((a.val).getD 0) (fracMax1 ((b.val).getD 0)))

/-- LlamaClient._generate_comprehensive_report (lines 291-357), with the
prose abbreviated to the computed parts.  The monthly trend lines read the
keys Part Produced / OEE (%), which the monthly entries do not carry, so
every month renders with the .get defaults of 0. -/
def comprehensiveReport (machine : String) (d : MachineData) : String :=
  let s := d.summary
  let produced := msGet s (fun b => b.total_parts_produced)
  let rejected := msGet s (fun b => b.total_parts_rejected)
  let energy := msGet s (fun b => b.total_energy)
  let monthly : List (String × MonthEntry) :=
    (match s with
     | some m => (m.monthly_breakdown).getD []
     | none => [])
  pyStrip ("\n**Manufacturing Analytics Report - Machine " ++ machine ++ "**\n\n" ++
    "**Production Performance:**\n• Total Parts Produced: " ++ showPyNum produced ++
    " units\n• Parts Rejected: " ++ showPyNum rejected ++ " units (" ++
    toString ((guardedDiv rejected produced).mul (Frac.ofInt 100)).num ++ "/" ++
    toString ((guardedDiv rejected produced).mul (Frac.ofInt 100)).den ++
    "% rejection rate)\n• Energy per Unit: " ++
    toString (guardedDiv energy produced).num ++ "/" ++ toString (guardedDiv energy produced).den ++
    " KwH/part\n" ++
    String.join (monthly.map (fun me =>
      "• " ++ me.1 ++ ": 0 parts, 0.0% OEE\n")))

/-- LlamaClient._generate_basic_report (lines 566-580), abbreviated. -/
def basicReport (machine : String) (s : Option MachineSummary) : String :=
  "\n**Manufacturing Summary - Machine " ++ machine ++ "**\n\n**Key Metrics:**\n" ++
  "• Total Production: " ++ showPyNum (msGet s (fun b => b.total_parts_produced)) ++
  " parts\n• Quality Rate: " ++ showPyNum (msGet s (fun b => b.quality_rate)) ++ "%\n"

/-- LlamaClient._generate_comparison_report (lines 440-485): with fewer than
two monthly entries it falls back to the basic report. -/
def comparisonReport (machine : String) (d : MachineData) : String :=
  let s := d.summary
  let monthly : List (String × MonthEntry) :=
    (match s with
     | some m => (m.monthly_breakdown).getD []
     | none => [])
  if monthly.length < 2 then basicReport machine s
  else
    pyStrip ("\n**Comparative Analysis Report - Machine " ++ machine ++ "**\n\n" ++
      "Analyzing performance across " ++ toString monthly.length ++ " time periods.\n" ++
      String.join (monthly.map (fun me => "• " ++ me.1 ++ ": 0 parts, OEE: 0.0%\n")))

/-- LlamaClient._generate_quality_report (lines 487-507), abbreviated. -/
def qualityReport (machine : String) (s : Option MachineSummary) : String :=
  "\n**Quality Analysis Report - Machine " ++ machine ++ "**\n\n" ++
  "• Total Production: " ++ showPyNum (msGet s (fun b => b.total_parts_produced)) ++
  " parts\n• Rejected Parts: " ++ showPyNum (msGet s (fun b => b.total_parts_rejected)) ++
  " parts\n• Quality Rate: " ++ showPyNum (msGet s (fun b => b.quality_rate)) ++ "%\n"

/-- LlamaClient._generate_oee_report (lines 509-526), abbreviated. -/
def oeeReport (machine : String) (s : Option MachineSummary) : String :=
  "\n**Overall Equipment Effectiveness (OEE) Report - Machine " ++ machine ++ "**\n\n" ++
  "• Current OEE: " ++ showPyNum (msGet s (fun b => b.average_oee)) ++ "%\n"

/-- LlamaClient._generate_energy_report (lines 528-545), abbreviated; the
per-unit figure uses the max(produced, 1) guard. -/
def energyReport (machine : String) (s : Option MachineSummary) : String :=
  let energy := msGet s (fun b => b.total_energy)
  let produced := msGet s (fun b => b.total_parts_produced)
  "\n**Energy Consumption Report - Machine " ++ machine ++ "**\n\n" ++
  "• Total Energy Consumed: " ++ showPyNum energy ++ " KwH\n• Energy Efficiency: " ++
  toString (guardedDiv energy produced).num ++ "/" ++
  toString (guardedDiv energy produced).den ++ " KwH per part\n"

/-- LlamaClient._generate_cost_report (lines 547-564), abbreviated; total
cost is never present, so it reports 0 with the max guard on units. -/
def costReport (machine : String) (s : Option MachineSummary) : String :=
  let produced := msGet s (fun b => b.total_parts_produced)
  "\n**Production Cost Analysis - Machine " ++ machine ++ "**\n\n" ++
  "• Total Production Cost: ₹" ++ showPyNum (PyNum.native 0) ++ "\n• Cost per Unit: ₹" ++
  toString (guardedDiv (PyNum.native 0) produced).num ++ "\n"

/-- LlamaClient._fallback_response (lines 262-289): keyword dispatch over the
report templates; an empty machine_data dict yields the fixed no-data text. -/
def fallbackResponse (query machine : String) (md : Option MachineData) : String :=
  match md with
  | none => "No data available for machine " ++ machine ++
      ". Please ensure the machine folder contains CSV files."
  | some d =>
      let ql := lowerS query
      if pyAnyIn ["summary", "overview", "report"] ql then comprehensiveReport machine d
      else if pyAnyIn ["compare", "comparison"] ql then comparisonReport machine d
      else if pyIn "quality" ql then qualityReport machine d.summary
      else if pyIn "oee" ql then oeeReport machine d.summary
      else if pyIn "energy" ql then energyReport machine d.summary
      else if pyIn "cost" ql then costReport machine d.summary
      else basicReport machine d.summary

/-- Fixed segments of the response prompt (generate_response, lines 61-79). -/
def responsePromptSeg1 : String :=
  "\n            You are a manufacturing data analyst AI assistant. Generate a comprehensive response to the user's query about machine "

def responsePromptSeg2 : String := ".\n            \n            User Query: \""

def responsePromptSeg3 : String := "\"\n            \n            Analysis Context: "

def responsePromptSeg4 : String := "\n            \n            Data Summary: "

def responsePromptSeg5 : String :=
  "\n            \n            Instructions:\n            1. Provide a clear, professional response\n            2. Include specific numbers and insights from the data\n            3. Mention key performance indicators (OEE, production rates, quality metrics)\n            4. Highlight any notable trends or patterns\n            5. Keep the response informative but concise\n            6. Use manufacturing terminology appropriately\n            \n            Response:\n            "

def responsePrompt (query machine : String) (md : Option MachineData)
    (analysis : QueryIntent) : String :=
  responsePromptSeg1 ++ machine ++ responsePromptSeg2 ++ query ++
  responsePromptSeg3 ++ jsonDumpsIntent analysis ++ responsePromptSeg4 ++
  prepareDataSummary md ++ responsePromptSeg5

/-- LlamaClient.generate_response (lines 55-86) with the external inference
unavailable.  When the rule-based terminal returns a JSON text, .strip() of
it is returned; when it returns None, response.strip() raises
AttributeError and the except clause returns _fallback_response. -/
def generateResponse (query machine : String) (md : Option MachineData)
    (analysis : QueryIntent) : String :=
  match callLlamaAllFail (responsePrompt query machine md analysis) with
  | some i => pyStrip (jsonDumpsIntent i)
  | none => fallbackResponse query machine md

/-! ## routes.py: the chat pipeline -/

/-- A chart descriptor as the chart generator returns it. -/
structure ChartDesc where
  ctype : String
  title : String
  image : String
  description : String

/-- The response dict of process_chat_query.  A key the branch does not set
is modelled as none. -/
structure ChatResponse where
  response : String
  rtype : String
  analysis : Option QueryIntent
  charts : List ChartDesc

/-- routes.process_chat_query (routes.py lines 76-119), parameterized over
the llama client entry points and the chart generator it calls (analyze_query
and generate_response are total: every internal failure is caught and turned
into a fallback value, as proved for the all-fail instantiation below). -/
def processChatQuery
    (analyzeFn : String → String → MachineData → QueryIntent)
    (generateFn : String → String → MachineData → QueryIntent → String)
    (chartFn : QueryIntent → MachineData → List ChartDesc)
    (query machine : String) (md : Option MachineData) : ChatResponse :=
  match md with
  | none =>
      { response := "No data found for machine " ++ machine ++
          ". Please check if the machine folder exists and contains CSV files."
        rtype := "error"
        analysis := none
        charts := [] }
  | some d =>
      let analysis := analyzeFn query machine d
      let text := generateFn query machine d analysis
      let text :=
        if d.querySpecific then
          "**Analysis for " ++ d.requestedFile ++ ":**\n\n" ++ text
        else text
      let charts := if analysis.needs_chart then chartFn analysis d else []
      { response := text
        rtype := "success"
        analysis := some analysis
        charts := charts }

/-- The llama client functions as routes.py wires them up, in the all-fail
inference condition of claim C5. -/
def llamaAnalyzeFn (query machine : String) (d : MachineData) : QueryIntent :=
  analyzeQuery query machine (prepareDataContext (some d))

def llamaGenerateFn (query machine : String) (d : MachineData) (a : QueryIntent) : String :=
  generateResponse query machine (some d) a

/-- A chart generator that draws nothing (charts are out of scope). -/
def noChartsFn : QueryIntent → MachineData → List ChartDesc := fun _ _ => []

/-! ## Generic lemmas: sums over group-by partitions -/

theorem sum_ite_eq_zero_of_not_mem {K M : Type} [DecidableEq K] [AddCommMonoid M]
    (ks : List K) (a : K) (c : M) (ha : a ∉ ks) :
    (ks.map (fun p => if p = a then c else 0)).sum = 0 := by
  induction ks with
  | nil => rfl
  | cons k t ih =>
      simp only [List.map_cons, List.sum_cons]
      rw [if_neg (fun h => ha (List.mem_cons.mpr (Or.inl h.symm))),
        ih (fun h => ha (List.mem_cons_of_mem _ h)), add_zero]

theorem sum_ite_eq_of_mem {K M : Type} [DecidableEq K] [AddCommMonoid M]
    (ks : List K) (a : K) (c : M) (hnd : ks.Nodup) (ha : a ∈ ks) :
    (ks.map (fun p => if p = a then c else 0)).sum = c := by
  induction ks with
  | nil => cases ha
  | cons k t ih =>
      simp only [List.map_cons, List.sum_cons]
      rcases List.mem_cons.mp ha with h | h
      · rw [if_pos h.symm,
          sum_ite_eq_zero_of_not_mem t a c
            (fun hat => (List.nodup_cons.mp hnd).1 (h ▸ hat)), add_zero]
      · have hk : ¬(k = a) := fun he => (List.nodup_cons.mp hnd).1 (he ▸ h)
        rw [if_neg hk, ih (List.nodup_cons.mp hnd).2 h, zero_add]

theorem sum_map_add {K M : Type} [AddCommMonoid M] (ks : List K) (f g : K → M) :
    (ks.map (fun p => f p + g p)).sum = (ks.map f).sum + (ks.map g).sum := by
  induction ks with
  | nil => simp
  | cons k t ih =>
      simp only [List.map_cons, List.sum_cons, ih]
      exact add_add_add_comm _ _ _ _

/-- Summing group-wise over any duplicate-free key cover gives the total sum. -/
theorem sum_groups {R K M : Type} [DecidableEq K] [AddCommMonoid M]
    (key : R → K) (v : R → M) (l : List R) (ks : List K) (hnd : ks.Nodup)
    (hcov : ∀ r ∈ l, key r ∈ ks) :
    (ks.map (fun p => ((l.filter (fun r => key r = p)).map v).sum)).sum
      = (l.map v).sum := by
  induction l with
  | nil => simp
  | cons r t ih =>
      have hmem : key r ∈ ks := hcov r (List.mem_cons_self r t)
      have step : (fun p => (((r :: t).filter (fun x => key x = p)).map v).sum)
          = fun p => (if p = key r then v r else 0)
              + ((t.filter (fun x => key x = p)).map v).sum := by
        funext p
        by_cases h : key r = p
        · simp [List.filter_cons, h, eq_comm]
        · have h2 : ¬(p = key r) := fun he => h he.symm
          simp [List.filter_cons, h, h2]
      rw [step, sum_map_add, sum_ite_eq_of_mem ks (key r) (v r) hnd hmem,
        ih (fun x hx => hcov x (List.mem_cons_of_mem r hx))]
      simp

theorem sum_map_one {R : Type} (l : List R) : (l.map (fun _ => (1 : ℕ))).sum = l.length := by
  induction l with
  | nil => rfl
  | cons r t ih => simp [ih, Nat.add_comm]

/-- Series.sum over the cells selected by f, as a sum of per-row defaults. -/
theorem colSum_eq_sum_getD {R : Type} (f : R → Option Frac) (l : List R) :
    colSum (l.map f) = (l.map (fun r => (f r).getD 0)).sum := by
  induction l with
  | nil => rfl
  | cons r t ih =>
      cases h : f r with
      | none =>
          show (List.filterMap id (f r :: t.map f)).sum = _
          rw [List.filterMap_cons, h, List.map_cons, List.sum_cons, h]
          show colSum (t.map f) = Option.getD none 0 + _
          rw [ih, Option.getD_none, zero_add]
      | some x =>
          show (List.filterMap id (f r :: t.map f)).sum = _
          rw [List.filterMap_cons, h, List.map_cons, List.sum_cons, h]
          show x + colSum (t.map f) = Option.getD (some x) 0 + _
          rw [ih, Option.getD_some]

/-- Rows on which the selector is null contribute nothing: filtering them
away preserves the column sum. -/
theorem sum_map_filter_of_zero {R M : Type} [AddCommMonoid M]
    (P : R → Bool) (g : R → M) (l : List R)
    (h : ∀ r ∈ l, P r = false → g r = 0) :
    ((l.filter P).map g).sum = (l.map g).sum := by
  induction l with
  | nil => rfl
  | cons r t ih =>
      have iht := ih (fun x hx => h x (List.mem_cons_of_mem r hx))
      cases hp : P r with
      | true => simp [List.filter_cons, hp, iht]
      | false =>
          simp [List.filter_cons, hp, iht, h r (List.mem_cons_self r t) hp]

/-! ## Generic lemmas: Python substring search -/

theorem toList_append (s t : String) : (s ++ t).toList = s.toList ++ t.toList :=
  String.data_append s t

theorem lowerS_append (s t : String) : lowerS (s ++ t) = lowerS s ++ lowerS t := by
  show String.mk ((s ++ t).toList.map Char.toLower)
      = String.mk (s.toList.map Char.toLower) ++ String.mk (t.toList.map Char.toLower)
  have hm : ∀ a b : List Char, String.mk a ++ String.mk b = String.mk (a ++ b) :=
    fun a b => rfl
  rw [hm]
  exact congrArg String.mk
    (by show List.map Char.toLower (s.toList ++ t.toList) = _
        rw [List.map_append])

theorem startsWithL_append (n : List Char) :
    ∀ l c : List Char, startsWithL n l = true → startsWithL n (l ++ c) = true := by
  induction n with
  | nil => intro l c _; rfl
  | cons a as ih =>
      intro l c h
      cases l with
      | nil => cases h
      | cons b bs =>
          simp only [startsWithL, Bool.and_eq_true] at h
          simp only [List.cons_append, startsWithL, Bool.and_eq_true]
          exact ⟨h.1, ih bs c h.2⟩

theorem hasSubL_nil_any (l : List Char) : hasSubL [] l = true := by
  cases l with
  | nil => rfl
  | cons c t => simp [hasSubL, startsWithL]

theorem hasSubL_append_left (n : List Char) :
    ∀ s c : List Char, hasSubL n s = true → hasSubL n (s ++ c) = true := by
  intro s
  induction s with
  | nil =>
      intro c h
      have hn : n = [] := by
        cases n with
        | nil => rfl
        | cons a as => simp [hasSubL, List.isEmpty] at h
      subst hn
      exact hasSubL_nil_any c
  | cons a t ih =>
      intro c h
      simp only [hasSubL, Bool.or_eq_true] at h
      rcases h with h | h
      · simp only [List.cons_append, hasSubL, Bool.or_eq_true]
        exact Or.inl (startsWithL_append n (a :: t) c h)
      · simp only [List.cons_append, hasSubL, Bool.or_eq_true]
        exact Or.inr (ih c h)

theorem hasSubL_append_right (n : List Char) :
    ∀ c s : List Char, hasSubL n s = true → hasSubL n (c ++ s) = true := by
  intro c
  induction c with
  | nil => intro s h; exact h
  | cons a t ih =>
      intro s h
      simp only [List.cons_append, hasSubL, Bool.or_eq_true]
      exact Or.inr (ih s h)

theorem pyIn_append_right (needle a b : String) (h : pyIn needle b = true) :
    pyIn needle (a ++ b) = true := by
  unfold pyIn at *
  rw [toList_append]
  exact hasSubL_append_right _ _ _ h

theorem pyIn_append_left (needle a b : String) (h : pyIn needle a = true) :
    pyIn needle (a ++ b) = true := by
  unfold pyIn at *
  rw [toList_append]
  exact hasSubL_append_left _ _ _ h

/-! ## Generic lemmas: nonempty strip results -/

theorem mem_dropWhile_of_mem {c : Char} (p : Char → Bool) (hp : p c = false) :
    ∀ l : List Char, c ∈ l → c ∈ l.dropWhile p := by
  intro l
  induction l with
  | nil => intro h; cases h
  | cons a t ih =>
      intro h
      by_cases ha : p a = true
      · rw [List.dropWhile_cons_of_pos ha]
        rcases List.mem_cons.mp h with h1 | h1
        · exact absurd (h1 ▸ ha) (by simp [hp])
        · exact ih h1
      · rw [List.dropWhile_cons_of_neg ha]
        exact h

theorem pyStrip_length_pos (s : String) (c : Char)
    (hmem : c ∈ s.toList) (hws : isWS c = false) : 0 < (pyStrip s).length := by
  show 0 < (((s.toList.dropWhile isWS).reverse.dropWhile isWS).reverse).length
  rw [List.length_reverse]
  have h1 : c ∈ (s.toList.dropWhile isWS) := mem_dropWhile_of_mem isWS hws _ hmem
  have h2 : c ∈ (s.toList.dropWhile isWS).reverse := List.mem_reverse.mpr h1
  have h3 : c ∈ (s.toList.dropWhile isWS).reverse.dropWhile isWS :=
    mem_dropWhile_of_mem isWS hws _ h2
  exact List.length_pos.mpr (fun he => by rw [he] at h3; cases h3)

theorem length_append_pos_left (a b : String) (h : 0 < a.length) :
    0 < (a ++ b).length := by
  rw [String.length_append]; omega

/-! ## Concrete fixtures -/

def blankRow : Row := ⟨none, none, none, none, none, none, none, none, []⟩

def blankDF : DF :=
  ⟨false, false, false, false, false, false, false, false, MaintDtype.objectDt, [], []⟩

def mdW : MachineData :=
  { machine := "M1"
    combined := blankDF
    fromTableSummary := getFileSummary blankDF
    fromTableDateRange := getDateRange blankDF
    summary := samGetMachineSummary blankDF
    querySpecific := false
    requestedFile := "" }

/-! ## Claim C6 -/

/-- C6: for every query and machine, when the fetched machine data is empty
(no rows found), process_chat_query returns the response object with type
error and charts = []; the pipeline is a total function of its inputs, so no
exception reaches the web layer. -/
theorem claim_C6_empty_data_error
    (analyzeFn : String → String → MachineData → QueryIntent)
    (generateFn : String → String → MachineData → QueryIntent → String)
    (chartFn : QueryIntent → MachineData → List ChartDesc)
    (query machine : String) (now : PyDateTime) (fetched : DF)
    (h : fetched.rows = []) :
    processChatQuery analyzeFn generateFn chartFn query machine
        (getSpecificFileData machine query now fetched) =
      { response := "No data found for machine " ++ machine ++
          ". Please check if the machine folder exists and contains CSV files."
        rtype := "error", analysis := none, charts := [] } := by
  unfold getSpecificFileData
  rw [h]
  rfl

theorem claim_C6_witness :
    (processChatQuery llamaAnalyzeFn llamaGenerateFn noChartsFn "show oee" "MC_PRESS_133"
        (getSpecificFileData "MC_PRESS_133" "show oee" ⟨2024, 6, 15⟩ blankDF)).rtype
      = "error" := by
  rw [claim_C6_empty_data_error llamaAnalyzeFn llamaGenerateFn noChartsFn "show oee"
    "MC_PRESS_133" ⟨2024, 6, 15⟩ blankDF rfl]

/-! ## Claim C7 -/

/-- C7 counterexample: the empty-data error response contains NO analysis
key at all (routes.py lines 82-87 build only response/charts/type), so the
claim that every processed request carries all four fields fails. -/
theorem claim_C7_counterexample :
    (processChatQuery llamaAnalyzeFn llamaGenerateFn noChartsFn "hello" "M1" none).analysis
      = none := rfl

/-- C7 amended: every response carries response/type/charts with type either
success or error; the analysis field is present exactly on the success path,
and the error path carries charts = [] and no analysis. -/
theorem claim_C7_response_shape
    (analyzeFn : String → String → MachineData → QueryIntent)
    (generateFn : String → String → MachineData → QueryIntent → String)
    (chartFn : QueryIntent → MachineData → List ChartDesc)
    (query machine : String) (md : Option MachineData) :
    ((processChatQuery analyzeFn generateFn chartFn query machine md).rtype = "success" ∨
      (processChatQuery analyzeFn generateFn chartFn query machine md).rtype = "error") ∧
    ((processChatQuery analyzeFn generateFn chartFn query machine md).rtype = "success" →
      (processChatQuery analyzeFn generateFn chartFn query machine md).analysis.isSome = true) ∧
    ((processChatQuery analyzeFn generateFn chartFn query machine md).rtype = "error" →
      (processChatQuery analyzeFn generateFn chartFn query machine md).analysis = none ∧
      (processChatQuery analyzeFn generateFn chartFn query machine md).charts = []) := by
  cases md with
  | none =>
      exact ⟨Or.inr rfl,
        fun h => absurd (show ("error" : String) = "success" from h) (by decide),
        fun _ => ⟨rfl, rfl⟩⟩
  | some d =>
      exact ⟨Or.inl rfl, fun _ => rfl,
        fun h => absurd (show ("success" : String) = "error" from h) (by decide)⟩

theorem claim_C7_witness :
    (processChatQuery llamaAnalyzeFn llamaGenerateFn noChartsFn "hi" "M1"
        (some mdW)).analysis.isSome = true :=
  (claim_C7_response_shape llamaAnalyzeFn llamaGenerateFn noChartsFn "hi" "M1"
    (some mdW)).2.1 rfl

/-! ## Claim C8 -/

/-- Day count of the month, following the words of the spec: the calendar
days-in-month rule, accounting for leap years. -/
def specDaysInMonth (y m : ℕ) : ℕ :=
  if m = 2 then (if (y % 4 = 0 && decide (y % 100 ≠ 0)) || y % 400 = 0 then 29 else 28)
  else if m = 4 ∨ m = 6 ∨ m = 9 ∨ m = 11 then 30
  else 31

/-- The remote-table filter string in the exact syntax the spec requires,
with bounds spanning the full calendar month. -/
def specFilterExpr (machine : String) (y m : ℕ) : String :=
  "device_name eq '" ++ machine ++ "' and date ge '" ++ dateStrftime y m 1 ++
  "' and date le '" ++ dateStrftime y m (specDaysInMonth y m) ++ "'"

/-- C8: for every machine and resolved (month, year), the filter string
issued by get_specific_file_data is exactly the required syntax, with the
lower bound the first day of the month and the upper bound the calendar
last day of the month, leap years included. -/
theorem claim_C8_filter_format (machine : String) (y m : ℕ)
    (h1 : 1 ≤ m) (h2 : m ≤ 12) :
    monthrangeDays y m = specDaysInMonth y m ∧
    buildFilter machine y m = specFilterExpr machine y m := by
  have h44 : y % 400 = 0 → y % 4 = 0 := by
    intro h
    have hd : (4 : ℕ) ∣ 400 := by decide
    have hmm := Nat.mod_mod_of_dvd y hd
    rw [h] at hmm
    simpa using hmm.symm
  have hdays : monthrangeDays y m = specDaysInMonth y m := by
    by_cases hm2 : m = 2
    · subst hm2
      simp only [monthrangeDays, specDaysInMonth, mdays, pyIsLeap, if_pos rfl]
      by_cases h4 : y % 4 = 0 <;> by_cases h100 : y % 100 = 0 <;>
        by_cases h400 : y % 400 = 0 <;>
        first
        | exact absurd (h44 h400) h4
        | simp [h4, h100, h400]
    · interval_cases m <;> simp_all [monthrangeDays, specDaysInMonth, mdays]
  refine ⟨hdays, ?_⟩
  unfold buildFilter specFilterExpr
  rw [hdays]

theorem claim_C8_witness :
    buildFilter "MC_PRESS_133" 2024 2 =
      "device_name eq 'MC_PRESS_133' and date ge '2024-02-01' and date le '2024-02-29'" := by
  rw [(claim_C8_filter_format "MC_PRESS_133" 2024 2 (by decide) (by decide)).2]
  decide

/-! ## Claim C9 -/

/-- C9 counterexample: a query containing the substring last month does NOT
resolve to the previous month when it also contains this month, because the
this-month branch is tested first (data_processor.py lines 457-461). -/
theorem claim_C9_counterexample :
    pyIn "last month" (lowerS "compare this month with last month") = true ∧
    extractDateFromQuery "compare this month with last month" ⟨2024, 1, 15⟩ = (1, "2024") ∧
    extractDateFromQuery "compare this month with last month" ⟨2024, 1, 15⟩ ≠ (12, "2023") := by
  decide

/-- C9 amended: for every now, a query containing last month and NOT
containing this month resolves to the month and year one calendar month
before now, with January rolling over to December of the previous year. -/
theorem claim_C9_last_month (query : String) (now : PyDateTime)
    (hLast : pyIn "last month" (lowerS query) = true)
    (hThis : pyIn "this month" (lowerS query) = false) :
    extractDateFromQuery query now = ((lastMonthOf now).1, toString (lastMonthOf now).2) := by
  unfold extractDateFromQuery extractMY
  simp [hThis, hLast]

theorem claim_C9_witness :
    extractDateFromQuery "last month" ⟨2024, 1, 15⟩ = (12, "2023") := by
  rw [claim_C9_last_month "last month" ⟨2024, 1, 15⟩ (by decide) (by decide)]
  decide

/-! ## Claim C1 -/

def rowC1 : Row := ⟨none, some ⟨3, 1⟩, some ⟨1, 1⟩, none, none, none, none, none, []⟩

def dfC1 : DF := { blankDF with hasAi := true, hasReject := true, rows := [rowC1] }

/-- C1 counterexample: sam_get_file_summary rounds quality_rate to two
decimals (round(float(quality_rate), 2)), so with produced 3 and rejected 1
it reports 66.67, not the exact (3-1)/3*100 = 200/3 the claim requires. -/
theorem claim_C1_counterexample :
    (samGetFileSummary dfC1).total_parts_produced.val = some (Frac.ofInt 3) ∧
    (samGetFileSummary dfC1).total_parts_rejected.val = some (Frac.ofInt 1) ∧
    (samGetFileSummary dfC1).quality_rate.val = some ⟨6667, 100⟩ ∧
    ¬ Frac.eqv ⟨6667, 100⟩
        ((((Frac.ofInt 3).sub (Frac.ofInt 1)).div (Frac.ofInt 3)).mul (Frac.ofInt 100)) := by
  decide

/-- C1 amended: both summaries guard the division on produced > 0 and report
exactly 0 otherwise; get_file_summary reports the exact formula
(produced - rejected) / produced * 100, while sam_get_file_summary reports
that formula rounded to two decimals. -/
theorem claim_C1_quality_rate (df : DF) :
    ((if df.hasAi then dfSumAi df else 0).gt0 = true →
      (getFileSummary df).quality_rate.val =
        some ((((if df.hasAi then dfSumAi df else 0).sub
            (if df.hasReject then dfSumReject df else 0)).div
            (if df.hasAi then dfSumAi df else 0)).mul (Frac.ofInt 100)) ∧
      (samGetFileSummary df).quality_rate.val =
        some (Frac.round2 ((((if df.hasAi then dfSumAi df else 0).sub
            (if df.hasReject then dfSumReject df else 0)).div
            (if df.hasAi then dfSumAi df else 0)).mul (Frac.ofInt 100)))) ∧
    ((if df.hasAi then dfSumAi df else 0).gt0 = false →
      (getFileSummary df).quality_rate.val = some (Frac.ofInt 0) ∧
      (samGetFileSummary df).quality_rate.val = some (Frac.round2 (Frac.ofInt 0)) ∧
      Frac.eqv (Frac.round2 (Frac.ofInt 0)) (Frac.ofInt 0)) := by
  cases hAi : df.hasAi <;> cases hRej : df.hasReject <;>
    constructor <;> intro h <;>
      simp_all [getFileSummary, samGetFileSummary, PyNum.gt0, PyNum.native,
        PyNum.sub, PyNum.div, PyNum.mul, PyNum.round2, Frac.ofInt] <;>
      exact ⟨rfl, rfl, by decide⟩

def rowC1w : Row := ⟨none, some ⟨4, 1⟩, some ⟨1, 1⟩, none, none, none, none, none, []⟩

def dfC1w : DF := { blankDF with hasAi := true, hasReject := true, rows := [rowC1w] }

theorem claim_C1_witness :
    (getFileSummary dfC1w).quality_rate.val = some ⟨300, 4⟩ ∧
    (samGetFileSummary dfC1w).quality_rate.val = some ⟨7500, 100⟩ := by
  have h := (claim_C1_quality_rate dfC1w).1 (by decide)
  refine ⟨?_, ?_⟩
  · rw [h.1]; decide
  · rw [h.2]; decide

/-! ## Claim C10 -/

def rowC10 : Row := ⟨none, none, none, none, none, none, some "RUNNING", none, []⟩

def dfC10 : DF := { blankDF with hasStatus := true, rows := [rowC10] }

/-- C10 counterexample: for a table-store row set WITHOUT a date column,
sam_clean_dataframe hits KeyError on df[keep_columns] and returns the frame
with Machine Status intact, and the summary on the get_specific_file_data
path then DOES contain a machine_status_breakdown. -/
theorem claim_C10_counterexample :
    (samCleanDF dfC10).hasStatus = true ∧
    ((getSpecificFileData "MC_PRESS_133" "june 2024" ⟨2024, 7, 1⟩ dfC10).map
        (fun md => md.summary.map (fun s => s.machine_status_breakdown)))
      = some (some (some [("RUNNING", PyNum.native (Frac.ofInt 1))])) := by
  decide

/-- Helper for C10: a frame without the status / maintenance columns yields
a sam summary without those keys. -/
theorem samSummary_no_status (df2 : DF) (hS : df2.hasStatus = false)
    (hM : df2.hasMaint = false) :
    ∀ s, samGetMachineSummary df2 = some s →
      s.machine_status_breakdown = none ∧ s.maintenance_events = none := by
  intro s hs
  simp only [samGetMachineSummary, hS, hM, Bool.false_eq_true, if_false] at hs
  split at hs
  · split at hs
    · cases hs; exact ⟨rfl, rfl⟩
    · split at hs
      · cases hs; exact ⟨rfl, rfl⟩
      · cases hs
  · cases hs; exact ⟨rfl, rfl⟩

/-- C10 amended: whenever the row set does carry a date column (as every row
matching the date-bounded filter does), sam_clean_dataframe retains at most
the date column plus present canonical numeric columns — Machine Status,
Maintenance Flag and energyCost are dropped — and the summaries computed on
the get_specific_file_data path contain no machine_status_breakdown and no
maintenance_events key. -/
theorem claim_C10_pruning (df : DF) (h : df.hasDate = true) :
    (samCleanDF df).hasStatus = false ∧
    (samCleanDF df).hasMaint = false ∧
    (samCleanDF df).hasEnergyCost = false ∧
    (∀ c ∈ (samCleanDF df).otherCols, c ∈ numericColumns) ∧
    (∀ s, samGetMachineSummary (samCleanDF df) = some s →
        s.machine_status_breakdown = none ∧ s.maintenance_events = none) := by
  have h1 : (samCleanDF df).hasStatus = false := by
    unfold samCleanDF; simp [h]
  have h2 : (samCleanDF df).hasMaint = false := by
    unfold samCleanDF; simp [h]
  have h3 : (samCleanDF df).hasEnergyCost = false := by
    unfold samCleanDF; simp [h]
  refine ⟨h1, h2, h3, ?_, samSummary_no_status _ h1 h2⟩
  intro c hc
  unfold samCleanDF at hc
  simp only [h, Bool.not_true, Bool.false_eq_true, if_false] at hc
  exact (List.mem_filter.mp hc).1

def rowC10w : Row := ⟨some ⟨2024, 6, 1⟩, none, none, none, none, none, some "RUNNING", none, []⟩

def dfC10w : DF := { blankDF with hasDate := true, hasStatus := true, rows := [rowC10w] }

theorem claim_C10_witness : (samCleanDF dfC10w).hasStatus = false :=
  (claim_C10_pruning dfC10w rfl).1

/-! ## Claim C3 -/

/-- Every numeric value of a file summary is a native scalar. -/
def fsAllNative (s : FileSummary) : Prop :=
  s.total_records.boxed = false ∧ s.total_parts_produced.boxed = false ∧
  s.total_parts_rejected.boxed = false ∧ s.average_oee.boxed = false ∧
  s.total_energy.boxed = false ∧ s.quality_rate.boxed = false

/-- Every numeric value of a machine summary, including the ones inside
machine_status_breakdown and monthly_breakdown, is a native scalar. -/
def msAllNative (s : MachineSummary) : Prop :=
  fsAllNative s.base ∧
  (∀ l, s.machine_status_breakdown = some l → ∀ kv ∈ l, kv.2.boxed = false) ∧
  (∀ x, s.maintenance_events = some x → x.boxed = false) ∧
  (∀ l, s.monthly_breakdown = some l → ∀ ke ∈ l,
      ke.2.Ai_partcount.boxed = false ∧ ke.2.avg_oee.boxed = false ∧
      ke.2.avg_total_energy.boxed = false ∧
      (∀ x, ke.2.energyCost = some x → x.boxed = false))

def rowC3 : Row := ⟨none, some ⟨5, 1⟩, none, none, none, none, none, none, []⟩

def dfC3 : DF := { blankDF with hasAi := true, rows := [rowC3] }

/-- C3 counterexample: get_machine_summary leaves its aggregates as numpy
scalars — the pandas sum of Ai_partcount is returned boxed, not native. -/
theorem claim_C3_counterexample :
    ((getMachineSummary dfC3).map (fun s => s.base.total_parts_produced.boxed))
      = some true := by
  decide

theorem unboxFS_native (s : FileSummary) : fsAllNative (unboxFileSummary s) :=
  ⟨rfl, rfl, rfl, rfl, rfl, rfl⟩

theorem statusCounts_unboxed (rows : List Row) :
    ∀ kv ∈ statusCounts rows false, kv.2.boxed = false := by
  intro kv hkv
  unfold statusCounts at hkv
  obtain ⟨a, _, rfl⟩ := List.mem_map.mp hkv
  rfl

theorem maintEventsSam_native (df : DF) : (maintEventsSam df).boxed = false := by
  unfold maintEventsSam
  split <;> rfl

theorem mkMonthEntrySam_native (hc : Bool) (g : List Row) :
    (mkMonthEntrySam hc g).Ai_partcount.boxed = false ∧
    (mkMonthEntrySam hc g).avg_oee.boxed = false ∧
    (mkMonthEntrySam hc g).avg_total_energy.boxed = false ∧
    (∀ x, (mkMonthEntrySam hc g).energyCost = some x → x.boxed = false) := by
  refine ⟨rfl, rfl, rfl, ?_⟩
  intro x hx
  unfold mkMonthEntrySam at hx
  simp only at hx
  split at hx
  · cases hx; rfl
  · cases hx

/-- C3 amended: every numeric aggregate produced by sam_get_machine_summary
(the .item-unboxed base values, the status counts, the maintenance count and
the monthly entries) is a native scalar; get_machine_summary does not have
this property. -/
theorem claim_C3_sam_native (df : DF) (s : MachineSummary)
    (h : samGetMachineSummary df = some s) : msAllNative s := by
  have hparts : ∀ (sb : Option (List (String × PyNum))) (me : Option PyNum)
      (dr : Option DateRange) (mb : Option (List (String × MonthEntry))),
      (sb = none ∨ ∃ rs, sb = some (statusCounts rs false)) →
      (me = none ∨ me = some (maintEventsSam df)) →
      (mb = none ∨ ∃ dfd, mb = some ((observedPeriods dfd).map
          (fun p => (periodStr p, mkMonthEntrySam df.hasEnergyCost (periodGroup dfd p))))) →
      msAllNative ⟨unboxFileSummary (getFileSummary df), sb, me, dr, mb⟩ := by
    intro sb me dr mb hsb hme hmb
    refine ⟨unboxFS_native _, ?_, ?_, ?_⟩
    · intro l hl kv hkv
      rcases hsb with hsb | ⟨rs, hsb⟩
      · rw [hsb] at hl; cases hl
      · rw [hsb] at hl
        cases hl
        exact statusCounts_unboxed rs kv hkv
    · intro x hx
      rcases hme with hme | hme
      · rw [hme] at hx; cases hx
      · rw [hme] at hx
        cases hx
        exact maintEventsSam_native df
    · intro l hl ke hke
      rcases hmb with hmb | ⟨dfd, hmb⟩
      · rw [hmb] at hl; cases hl
      · rw [hmb] at hl
        cases hl
        obtain ⟨p, _, rfl⟩ := List.mem_map.mp hke
        exact mkMonthEntrySam_native df.hasEnergyCost (periodGroup dfd p)
  have hsb0 : ∀ b : Bool, ((if b = true then some (statusCounts df.rows false) else none)
      = none ∨ ∃ rs, (if b = true then some (statusCounts df.rows false) else none)
        = some (statusCounts rs false)) := by
    intro b
    cases b
    · exact Or.inl rfl
    · exact Or.inr ⟨df.rows, rfl⟩
  have hme0 : ∀ b : Bool, ((if b = true then some (maintEventsSam df) else none) = none ∨
      (if b = true then some (maintEventsSam df) else none) = some (maintEventsSam df)) := by
    intro b
    cases b
    · exact Or.inl rfl
    · exact Or.inr rfl
  simp only [samGetMachineSummary] at h
  split at h
  · split at h
    · cases h
      exact hparts _ _ none none (hsb0 _) (hme0 _) (Or.inl rfl)
    · split at h
      · cases h
        exact hparts _ _ _ _ (hsb0 _) (hme0 _) (Or.inr ⟨datedRows df, rfl⟩)
      · cases h
  · cases h
    exact hparts _ _ none none (hsb0 _) (hme0 _) (Or.inl rfl)

def rowC3w : Row := ⟨none, some ⟨3, 1⟩, none, none, none, none, none, none, []⟩

def dfC3w : DF := { blankDF with hasAi := true, rows := [rowC3w] }

def sC3w : MachineSummary :=
  ⟨unboxFileSummary (getFileSummary dfC3w), none, none, none, none⟩

theorem claim_C3_witness : msAllNative sC3w :=
  claim_C3_sam_native dfC3w sC3w (by decide)

/-! ## Claim C4 -/

def rowC4 : Row :=
  ⟨some ⟨2024, 6, 5⟩, some ⟨10, 1⟩, some ⟨0, 1⟩, some ⟨80, 1⟩, some ⟨3, 1⟩,
   none, none, none, []⟩

/-- A fully canonical normalized table: date plus canonical numeric columns,
one row with a non-null date; the non-canonical energyCost column is (by the
canonical schema) absent. -/
def dfC4 : DF :=
  { blankDF with
      hasDate := true
      hasAi := true
      hasReject := true
      hasOee := true
      hasEnergy := true
      rows := [rowC4] }

/-- C4 (code bug): on a canonical table with a date column and a dated row,
get_machine_summary returns the EMPTY summary — its monthly agg dict
hard-codes the absent energyCost column, pandas raises KeyError, and the
except clause degrades the whole summary to \x7b\x7d — whereas
sam_get_machine_summary (which guards energyCost) returns the date_range
and the YYYY-MM keyed monthly breakdown the claim describes. -/
theorem claim_C4_energycost_bug :
    getMachineSummary dfC4 = none ∧
    ((samGetMachineSummary dfC4).map (fun s =>
        (s.date_range.isSome, s.monthly_breakdown.map (fun l => l.map Prod.fst))))
      = some (true, some ["2024-06"]) := by
  decide

/-! ## Claim C5 -/

theorem mem_toList_append_left (c : Char) (a b : String) (h : c ∈ a.toList) :
    c ∈ (a ++ b).toList := by
  rw [toList_append]
  exact List.mem_append_left _ h

/-- The analysis prompt always contains analyze, json and summary (its fixed
trailing segment carries all three), so the rule-based terminal classifier
always takes its first branch. -/
theorem analyzeQuery_const (query machine context : String) :
    analyzeQuery query machine context = rbSummaryIntent := by
  have h1 : pyIn "analyze" (lowerS (analysisPrompt query machine context)) = true := by
    unfold analysisPrompt
    rw [lowerS_append]
    exact pyIn_append_right _ _ _ (by decide)
  have h2 : pyIn "json" (lowerS (analysisPrompt query machine context)) = true := by
    unfold analysisPrompt
    rw [lowerS_append]
    exact pyIn_append_right _ _ _ (by decide)
  have h3 : pyIn "summary" (lowerS (analysisPrompt query machine context)) = true := by
    unfold analysisPrompt
    rw [lowerS_append]
    exact pyIn_append_right _ _ _ (by decide)
  simp [analyzeQuery, callLlamaAllFail, ruleBasedResponse, pyAnyIn, h1, h2, h3]

theorem comprehensiveReport_length_pos (machine : String) (d : MachineData) :
    0 < (comprehensiveReport machine d).length := by
  unfold comprehensiveReport
  apply pyStrip_length_pos _ '*'
  · repeat apply mem_toList_append_left
    decide
  · decide

theorem basicReport_length_pos (machine : String) (s : Option MachineSummary) :
    0 < (basicReport machine s).length := by
  unfold basicReport
  repeat apply length_append_pos_left
  decide

theorem comparisonReport_length_pos (machine : String) (d : MachineData) :
    0 < (comparisonReport machine d).length := by
  unfold comparisonReport
  dsimp only
  split
  · exact basicReport_length_pos machine d.summary
  · apply pyStrip_length_pos _ '*'
    · repeat apply mem_toList_append_left
      decide
    · decide

theorem qualityReport_length_pos (machine : String) (s : Option MachineSummary) :
    0 < (qualityReport machine s).length := by
  unfold qualityReport
  repeat apply length_append_pos_left
  decide

theorem oeeReport_length_pos (machine : String) (s : Option MachineSummary) :
    0 < (oeeReport machine s).length := by
  unfold oeeReport
  repeat apply length_append_pos_left
  decide

theorem energyReport_length_pos (machine : String) (s : Option MachineSummary) :
    0 < (energyReport machine s).length := by
  unfold energyReport
  repeat apply length_append_pos_left
  decide

theorem costReport_length_pos (machine : String) (s : Option MachineSummary) :
    0 < (costReport machine s).length := by
  unfold costReport
  repeat apply length_append_pos_left
  decide

/-- The terminal narrative fallback always yields a nonempty string, on every
keyword branch. -/
theorem fallbackResponse_length_pos (query machine : String) (md : Option MachineData) :
    0 < (fallbackResponse query machine md).length := by
  unfold fallbackResponse
  cases md with
  | none =>
      apply length_append_pos_left
      apply length_append_pos_left
      decide
  | some d =>
      dsimp only
      split
      · exact comprehensiveReport_length_pos machine d
      · split
        · exact comparisonReport_length_pos machine d
        · split
          · exact qualityReport_length_pos machine d.summary
          · split
            · exact oeeReport_length_pos machine d.summary
            · split
              · exact energyReport_length_pos machine d.summary
              · split
                · exact costReport_length_pos machine d.summary
                · exact basicReport_length_pos machine d.summary

/-- generate_response never yields an empty or absent narrative when every
external inference path fails: either the rule-based JSON text (stripped) or
a report template is returned. -/
theorem generateResponse_length_pos (query machine : String)
    (md : Option MachineData) (a : QueryIntent) :
    0 < (generateResponse query machine md a).length := by
  unfold generateResponse
  cases hc : callLlamaAllFail (responsePrompt query machine md a) with
  | some i =>
      apply pyStrip_length_pos _ '{'
      · unfold jsonDumpsIntent
        repeat apply mem_toList_append_left
        decide
      · decide
  | none => exact fallbackResponse_length_pos query machine md

/-- An intent object is well-formed when its category is one of the five the
spec fixes and its metric / chart lists are populated. -/
def wellFormedIntent (i : QueryIntent) : Prop :=
  (i.intent ∈ (["summary", "comparison", "trend", "specific_metric", "report"] :
      List String)) ∧
  i.metrics ≠ [] ∧ i.chart_types ≠ []

/-- C5: with every external inference path failing, classification and
composition terminate in the deterministic rule-based fallback: analyze_query
returns a well-formed intent object (in fact the fixed rule-based summary
intent, since the analysis prompt itself contains the trigger keywords) and
generate_response returns a (nonempty) string; no failure escapes. -/
theorem claim_C5_fallback_total (query machine context : String)
    (md : Option MachineData) (analysis : QueryIntent) :
    analyzeQuery query machine context = rbSummaryIntent ∧
    wellFormedIntent (analyzeQuery query machine context) ∧
    0 < (generateResponse query machine md analysis).length := by
  have hc := analyzeQuery_const query machine context
  refine ⟨hc, ?_, generateResponse_length_pos query machine md analysis⟩
  rw [hc]
  exact ⟨by decide, by decide, by decide⟩

/-! ## Claim C2 -/

def rowC2a : Row :=
  ⟨some ⟨2024, 6, 1⟩, some ⟨2, 1⟩, none, some ⟨50, 1⟩, some ⟨1, 1⟩,
   some ⟨0, 1⟩, none, none, []⟩

def rowC2b : Row := ⟨none, some ⟨5, 1⟩, none, none, none, none, none, none, []⟩

/-- A table (with the energyCost column, so that get_machine_summary reaches
the monthly aggregation at all) holding one dated row with Ai_partcount 2
and one NULL-dated row with Ai_partcount 5. -/
def dfC2 : DF :=
  { blankDF with
      hasDate := true
      hasAi := true
      hasOee := true
      hasEnergy := true
      hasEnergyCost := true
      rows := [rowC2a, rowC2b] }

/-- C2 counterexample: the monthly breakdown only aggregates rows with
non-null dates, while total_parts_produced sums the whole table, so the sum
of the per-month Ai_partcount values (2) differs from the table-wide total
(7) as soon as a null-dated row carries a count. -/
theorem claim_C2_counterexample :
    ((getMachineSummary dfC2).map (fun s =>
        (s.base.total_parts_produced.val,
         s.monthly_breakdown.map (fun l => l.map (fun ke => ke.2.Ai_partcount.val)))))
      = some (some ⟨7, 1⟩, some [some ⟨2, 1⟩]) ∧
    ¬ Frac.eqv ⟨2, 1⟩ ⟨7, 1⟩ := by
  decide

/-- C2 amended: when the monthly breakdown exists (date column present, at
least one dated row, and the four aggregated columns present), its keys
partition the non-null-dated rows exactly once, and the per-month sums add
up to the column sums over the NON-NULL-DATED rows; these equal the
table-wide totals reported in the same summary exactly when every null-dated
row is null in the summed fields. -/
theorem claim_C2_monthly_partition (df : DF)
    (hD : df.hasDate = true) (hAi : df.hasAi = true) (hOee : df.hasOee = true)
    (hEn : df.hasEnergy = true) (hEC : df.hasEnergyCost = true)
    (hne : (datedRows df).isEmpty = false) :
    getMachineSummary df = some
      ⟨getFileSummary df,
        (if df.hasStatus = true then some (statusCounts df.rows true) else none),
        (if df.hasMaint = true then some (maintEventsRaw df) else none),
        some (getDateRange { df with rows := datedRows df }),
        some ((observedPeriods (datedRows df)).map
          (fun p => (periodStr p, mkMonthEntryRaw (periodGroup (datedRows df) p))))⟩ ∧
    (∀ r ∈ datedRows df, rowPeriod r ∈ observedPeriods (datedRows df)) ∧
    ((observedPeriods (datedRows df)).map
        (fun p => (periodGroup (datedRows df) p).length)).sum = (datedRows df).length ∧
    ((observedPeriods (datedRows df)).map
        (fun p => colSum ((periodGroup (datedRows df) p).map (fun r => r.Ai_partcount)))).sum
      = colSum ((datedRows df).map (fun r => r.Ai_partcount)) ∧
    ((observedPeriods (datedRows df)).map
        (fun p => colSum ((periodGroup (datedRows df) p).map (fun r => r.avg_total_energy)))).sum
      = colSum ((datedRows df).map (fun r => r.avg_total_energy)) ∧
    (getFileSummary df).total_parts_produced.val = some (dfSumAi df) ∧
    (getFileSummary df).total_energy.val = some (dfSumEnergy df) ∧
    ((∀ r ∈ df.rows, r.date = none → r.Ai_partcount = none ∧ r.avg_total_energy = none) →
      colSum ((datedRows df).map (fun r => r.Ai_partcount)) = dfSumAi df ∧
      colSum ((datedRows df).map (fun r => r.avg_total_energy)) = dfSumEnergy df) := by
  have hcov : ∀ r ∈ datedRows df, rowPeriod r ∈ observedPeriods (datedRows df) :=
    fun r hr => List.mem_dedup.mpr (List.mem_map_of_mem rowPeriod hr)
  have hnd : (observedPeriods (datedRows df)).Nodup := List.nodup_dedup _
  refine ⟨?_, hcov, ?_, ?_, ?_, ?_, ?_, ?_⟩
  · unfold getMachineSummary
    simp [hD, hAi, hOee, hEn, hEC, hne]
  · have h := sum_groups rowPeriod (fun _ => (1 : ℕ)) (datedRows df)
      (observedPeriods (datedRows df)) hnd hcov
    have e : (observedPeriods (datedRows df)).map
        (fun p => (periodGroup (datedRows df) p).length)
        = (observedPeriods (datedRows df)).map
          (fun p => ((periodGroup (datedRows df) p).map (fun _ => (1 : ℕ))).sum) :=
      List.map_congr_left (fun p _ => (sum_map_one _).symm)
    rw [e]
    unfold periodGroup
    rw [h, sum_map_one]
  · have h := sum_groups rowPeriod (fun r => (r.Ai_partcount).getD 0) (datedRows df)
      (observedPeriods (datedRows df)) hnd hcov
    have e : (observedPeriods (datedRows df)).map
        (fun p => colSum ((periodGroup (datedRows df) p).map (fun r => r.Ai_partcount)))
        = (observedPeriods (datedRows df)).map
          (fun p => ((periodGroup (datedRows df) p).map
            (fun r => (r.Ai_partcount).getD 0)).sum) :=
      List.map_congr_left (fun p _ => colSum_eq_sum_getD _ _)
    rw [e]
    unfold periodGroup
    rw [h, ← colSum_eq_sum_getD]
  · have h := sum_groups rowPeriod (fun r => (r.avg_total_energy).getD 0) (datedRows df)
      (observedPeriods (datedRows df)) hnd hcov
    have e : (observedPeriods (datedRows df)).map
        (fun p => colSum ((periodGroup (datedRows df) p).map (fun r => r.avg_total_energy)))
        = (observedPeriods (datedRows df)).map
          (fun p => ((periodGroup (datedRows df) p).map
            (fun r => (r.avg_total_energy).getD 0)).sum) :=
      List.map_congr_left (fun p _ => colSum_eq_sum_getD _ _)
    rw [e]
    unfold periodGroup
    rw [h, ← colSum_eq_sum_getD]
  · simp [getFileSummary, hAi]
  · simp [getFileSummary, hEn]
  · intro hnull
    have hz : ∀ (sel : Row → Option Frac),
        (∀ r ∈ df.rows, r.date = none → sel r = none) →
        colSum ((datedRows df).map (fun r => sel r))
          = colSum (df.rows.map (fun r => sel r)) := by
      intro sel hsel
      rw [colSum_eq_sum_getD, colSum_eq_sum_getD]
      apply sum_map_filter_of_zero
      intro r hr hP
      have hd : r.date = none := by
        cases hdd : r.date with
        | none => rfl
        | some d => rw [hdd] at hP; cases hP
      rw [hsel r hr hd]
      rfl
    exact ⟨hz (fun r => r.Ai_partcount) (fun r hr hd => (hnull r hr hd).1),
      hz (fun r => r.avg_total_energy) (fun r hr hd => (hnull r hr hd).2)⟩

def rowC2c : Row :=
  ⟨some ⟨2024, 7, 3⟩, some ⟨4, 1⟩, none, some ⟨60, 1⟩, some ⟨2, 1⟩,
   some ⟨0, 1⟩, none, none, []⟩

def dfC2w : DF :=
  { blankDF with
      hasDate := true
      hasAi := true
      hasOee := true
      hasEnergy := true
      hasEnergyCost := true
      rows := [rowC2a, rowC2c] }

theorem claim_C2_witness :
    ((observedPeriods (datedRows dfC2w)).map
        (fun p => (periodGroup (datedRows dfC2w) p).length)).sum = 2 ∧
    colSum ((datedRows dfC2w).map (fun r => r.Ai_partcount)) = dfSumAi dfC2w := by
  have h := claim_C2_monthly_partition dfC2w rfl rfl rfl rfl rfl (by decide)
  constructor
  · rw [h.2.2.1]
    decide
  · exact (h.2.2.2.2.2.2.2 (by decide)).1

theorem claim_C5_witness :
    analyzeQuery "show me a quality comparison chart" "MC_PRESS_133" "No data available"
      = rbSummaryIntent ∧
    0 < (generateResponse "show me a quality comparison chart" "MC_PRESS_133" none
        rbSummaryIntent).length := by
  have h := claim_C5_fallback_total "show me a quality comparison chart" "MC_PRESS_133"
    "No data available" none rbSummaryIntent
  exact ⟨h.1, h.2.2⟩
